import Mathlib

/-!
Verification of the ComplianceCore repository (CAELUS compliance system).

This file shallowly embeds the decision logic of the repository:

* `chat_with_documents` from `src/app.py` (the QueryResponder): the
  keyword-driven extraction loop over the batch of compliance result
  records, the topic dispatch, and the canned response templates.
  Python strings become `String`/`List Char`; the three regular
  expressions used by the source are embedded as explicit left-to-right
  scanners over character lists; `dict.get` becomes `Option.getD`; a run
  of the Python function is `PyResult String` (`ok` a returned string,
  `exn` a raised exception).  The source places `import re` inside the
  first (insulation) branch of the extraction loop, so the name `re` is
  a local variable of the function and every other branch that runs
  before an insulation record raises `UnboundLocalError`; the embedding
  models this with the `reImported` flag.
* the benchmark harness from `src/benchmark.py`: per-case scoring and
  `_calculate_summary_metrics` (overall and per-category accuracy).
* the Comparator of the spec (§4.3); its source
  (`compliance_checker.py`) is not part of the provided sources, so it
  is modelled from the spec.
-/

set_option maxRecDepth 10000

/-- Outcome of running a Python function: a returned value or a raised
exception (carrying the exception message). -/
inductive PyResult (α : Type) where
  | ok (value : α)
  | exn (message : String)
  deriving DecidableEq

/-- ASCII lower-casing of one character, the effect of Python
`str.lower()` on the ASCII texts handled here. -/
def toLowerChar (c : Char) : Char :=
  if 'A' ≤ c ∧ c ≤ 'Z' then Char.ofNat (c.toNat + 32) else c

/-- The character list of a string after lower-casing. -/
def lowerData (s : String) : List Char := s.data.map toLowerChar

/-- Substring test: `containsSub needle hay` is the Python expression
`needle in hay` on strings, as a scan over character lists. -/
def containsSub (needle : List Char) : List Char → Bool
  | [] => needle.isEmpty
  | c :: t => needle.isPrefixOf (c :: t) || containsSub needle t

/-- Python keyword dispatch `any(word in q for word in words)`. -/
def containsAnyWord (words : List String) (q : List Char) : Bool :=
  words.any (fun w => containsSub w.data q)

/-- Whitespace characters matched by the regex class used in the
source patterns. -/
def isSpaceChar (c : Char) : Bool :=
  c = ' ' || c = '\t' || c = '\n' || c = '\r' || c = '\x0b' || c = '\x0c'

/-- Embedding of `re.search` for the source patterns of the shape
digits, optional whitespace, then one of the given literal tokens
(`(\d+)\s*mm`, `(\d+)\s*hours`, `(\d+)\s*(?:independent|separate)`):
scan left to right; at a position starting with a digit take the
maximal digit run, skip whitespace, and demand one of `tokens` as a
literal; on success capture the digit run, otherwise advance one
character.  Maximal-munch is exact for these patterns because a
shorter digit run would leave a digit where the pattern next requires
whitespace or a letter. -/
def findNumBefore (tokens : List String) : List Char → Option String
  | [] => none
  | c :: rest =>
    if c.isDigit then
      let ds := (c :: rest).takeWhile Char.isDigit
      let after := (c :: rest).dropWhile Char.isDigit
      let afterSpaces := after.dropWhile isSpaceChar
      if tokens.any (fun t => t.data.isPrefixOf afterSpaces) then
        some (String.mk ds)
      else
        findNumBefore tokens rest
    else
      findNumBefore tokens rest

/-- Embedding of `re.search` for the seismic pattern `(\d+\.\d+)g`:
digits, a literal dot, digits, then a literal `g`, capturing the
decimal numeral. -/
def findDecimalG : List Char → Option String
  | [] => none
  | c :: rest =>
    if c.isDigit then
      let d1 := (c :: rest).takeWhile Char.isDigit
      let r1 := (c :: rest).dropWhile Char.isDigit
      match r1 with
      | '.' :: r2 =>
        let d2 := r2.takeWhile Char.isDigit
        let r3 := r2.dropWhile Char.isDigit
        if d2.isEmpty then
          findDecimalG rest
        else
          match r3 with
          | 'g' :: _ => some (String.mk (d1 ++ '.' :: d2))
          | _ => findDecimalG rest
      | _ => findDecimalG rest
    else
      findDecimalG rest

/-- One compliance result record of the batch, a Python dict of
strings; `none` is an absent key, so `dict.get(k, d)` is `(·.getD d)`
and `dict.get(k)` compares as `Option String`. -/
structure ResultRecord where
  compliance_status : Option String
  regulation_text : Option String
  design_text : Option String

/-- The local variables of `chat_with_documents` mutated by the
extraction loop, together with the `reImported` flag recording whether
the `import re` statement inside the insulation branch has executed in
the current call. -/
structure ChatState where
  reImported : Bool
  design_thickness : String
  required_thickness : String
  design_seismic : String
  required_seismic : String
  design_hours : String
  required_hours : String
  design_pumps : String
  required_pumps : String
  deriving DecidableEq

/-- Initial loop state: every slot holds the placeholder and `re` is
not yet imported. -/
def initChatState : ChatState :=
  { reImported := false
    design_thickness := "N/A", required_thickness := "N/A"
    design_seismic := "N/A", required_seismic := "N/A"
    design_hours := "N/A", required_hours := "N/A"
    design_pumps := "N/A", required_pumps := "N/A" }

/-- The exception raised when a branch of the loop evaluates `re`
before the insulation branch has executed its `import re`. -/
def unboundReMessage : String :=
  "UnboundLocalError: local variable re referenced before assignment"

/-- Lower-cased regulation text of a record, the loop's local
`regulation_text = result.get('regulation_text', '').lower()`. -/
def regLower (result : ResultRecord) : List Char :=
  lowerData (result.regulation_text.getD "")

/-- Lower-cased design text of a record, the loop's local
`design_text_lower = result.get('design_text', '').lower()`. -/
def desLower (result : ResultRecord) : List Char :=
  lowerData (result.design_text.getD "")

/-- Body of the insulation branch (also executes `import re`). -/
def insulationUpdate (st : ChatState) (regulation_text design_text_lower : List Char) :
    ChatState :=
  let st := { st with reImported := true }
  let st := match findNumBefore ["mm"] regulation_text with
    | some v => { st with required_thickness := v }
    | none => st
  match findNumBefore ["mm"] design_text_lower with
  | some v => { st with design_thickness := v }
  | none => st

/-- Body of the seismic branch. -/
def seismicUpdate (st : ChatState) (regulation_text design_text_lower : List Char) :
    ChatState :=
  let st := match findDecimalG regulation_text with
    | some v => { st with required_seismic := v }
    | none => st
  match findDecimalG design_text_lower with
  | some v => { st with design_seismic := v }
  | none => st

/-- Body of the emergency-hours branch. -/
def hoursUpdate (st : ChatState) (regulation_text design_text_lower : List Char) :
    ChatState :=
  let st := match findNumBefore ["hours"] regulation_text with
    | some v => { st with required_hours := v }
    | none => st
  match findNumBefore ["hours"] design_text_lower with
  | some v => { st with design_hours := v }
  | none => st

/-- Body of the pumps branch. -/
def pumpsUpdate (st : ChatState) (regulation_text design_text_lower : List Char) :
    ChatState :=
  let st := match findNumBefore ["independent", "separate"] regulation_text with
    | some v => { st with required_pumps := v }
    | none => st
  match findNumBefore ["independent", "separate"] design_text_lower with
  | some v => { st with design_pumps := v }
  | none => st

/-- One iteration of the extraction loop of `chat_with_documents`
(`src/app.py` lines 72-112): branch on the lower-cased regulation text
with the source order insulation+thickness, seismic, hours+emergency,
pumps+containment; the first branch executes `import re`, the others
raise `UnboundLocalError` when `re` is still unbound. -/
def stepRecord (st : ChatState) (result : ResultRecord) : PyResult ChatState :=
  let regulation_text := regLower result
  let design_text_lower := desLower result
  if containsSub "insulation".data regulation_text &&
      containsSub "thickness".data regulation_text then
    .ok (insulationUpdate st regulation_text design_text_lower)
  else if containsSub "seismic".data regulation_text then
    if st.reImported then .ok (seismicUpdate st regulation_text design_text_lower)
    else .exn unboundReMessage
  else if containsSub "hours".data regulation_text &&
      containsSub "emergency".data regulation_text then
    if st.reImported then .ok (hoursUpdate st regulation_text design_text_lower)
    else .exn unboundReMessage
  else if containsSub "pumps".data regulation_text &&
      containsSub "containment".data regulation_text then
    if st.reImported then .ok (pumpsUpdate st regulation_text design_text_lower)
    else .exn unboundReMessage
  else
    .ok st

/-- The state transformation of one loop iteration, with the
`UnboundLocalError` raise removed: `stepRecord` agrees with it on
every iteration that returns normally. -/
def stepPure (st : ChatState) (result : ResultRecord) : ChatState :=
  let regulation_text := regLower result
  let design_text_lower := desLower result
  if containsSub "insulation".data regulation_text &&
      containsSub "thickness".data regulation_text then
    insulationUpdate st regulation_text design_text_lower
  else if containsSub "seismic".data regulation_text then
    seismicUpdate st regulation_text design_text_lower
  else if containsSub "hours".data regulation_text &&
      containsSub "emergency".data regulation_text then
    hoursUpdate st regulation_text design_text_lower
  else if containsSub "pumps".data regulation_text &&
      containsSub "containment".data regulation_text then
    pumpsUpdate st regulation_text design_text_lower
  else
    st

/-- The whole extraction loop: iterate `stepRecord`; a raised
exception aborts the call. -/
def scanResults : ChatState → List ResultRecord → PyResult ChatState
  | st, [] => .ok st
  | st, r :: rs =>
    match stepRecord st r with
    | .ok st2 => scanResults st2 rs
    | .exn e => .exn e

/-- The extraction loop without the raise: a left fold of `stepPure`. -/
def scanPure (st : ChatState) (rs : List ResultRecord) : ChatState :=
  rs.foldl stepPure st

/-- The four extraction categories of the loop. -/
inductive TopicCat where
  | insulation
  | seismic
  | emergency
  | pumps
  deriving DecidableEq

/-- The category a record contributes to: the branch of the `elif`
chain selected by its lower-cased regulation text, `none` when no
branch matches. -/
def recordBranch (regulation_text : List Char) : Option TopicCat :=
  if containsSub "insulation".data regulation_text &&
      containsSub "thickness".data regulation_text then
    some .insulation
  else if containsSub "seismic".data regulation_text then
    some .seismic
  else if containsSub "hours".data regulation_text &&
      containsSub "emergency".data regulation_text then
    some .emergency
  else if containsSub "pumps".data regulation_text &&
      containsSub "containment".data regulation_text then
    some .pumps
  else
    none

/-- The ordered `(category, predicate)` table of the loop, in source
order. -/
def categoryTests : List (TopicCat × (List Char → Bool)) :=
  [(.insulation, fun rt => containsSub "insulation".data rt &&
      containsSub "thickness".data rt),
   (.seismic, fun rt => containsSub "seismic".data rt),
   (.emergency, fun rt => containsSub "hours".data rt &&
      containsSub "emergency".data rt),
   (.pumps, fun rt => containsSub "pumps".data rt &&
      containsSub "containment".data rt)]

/-- First-match-wins category selection over the ordered table. -/
def firstMatchCategory (regulation_text : List Char) : Option TopicCat :=
  (categoryTests.find? (fun p => p.2 regulation_text)).map (fun p => p.1)

/-- The requirement-side thickness candidate a record offers:
`some v` exactly when the record falls in the insulation branch and
its regulation text matches `(\d+)\s*mm`. -/
def reqThicknessOf (r : ResultRecord) : Option String :=
  if recordBranch (regLower r) = some .insulation then
    findNumBefore ["mm"] (regLower r)
  else none

/-- Design-side thickness candidate of a record. -/
def desThicknessOf (r : ResultRecord) : Option String :=
  if recordBranch (regLower r) = some .insulation then
    findNumBefore ["mm"] (desLower r)
  else none

/-- Requirement-side seismic candidate of a record. -/
def reqSeismicOf (r : ResultRecord) : Option String :=
  if recordBranch (regLower r) = some .seismic then
    findDecimalG (regLower r)
  else none

/-- Design-side seismic candidate of a record. -/
def desSeismicOf (r : ResultRecord) : Option String :=
  if recordBranch (regLower r) = some .seismic then
    findDecimalG (desLower r)
  else none

/-- Requirement-side hours candidate of a record. -/
def reqHoursOf (r : ResultRecord) : Option String :=
  if recordBranch (regLower r) = some .emergency then
    findNumBefore ["hours"] (regLower r)
  else none

/-- Design-side hours candidate of a record. -/
def desHoursOf (r : ResultRecord) : Option String :=
  if recordBranch (regLower r) = some .emergency then
    findNumBefore ["hours"] (desLower r)
  else none

/-- Requirement-side pump-count candidate of a record. -/
def reqPumpsOf (r : ResultRecord) : Option String :=
  if recordBranch (regLower r) = some .pumps then
    findNumBefore ["independent", "separate"] (regLower r)
  else none

/-- Design-side pump-count candidate of a record. -/
def desPumpsOf (r : ResultRecord) : Option String :=
  if recordBranch (regLower r) = some .pumps then
    findNumBefore ["independent", "separate"] (desLower r)
  else none

/-- Value a slot holds after the whole scan: the candidate of the last
record that offers one, `N/A` when none does. -/
def lastExtracted (f : ResultRecord → Option String) (rs : List ResultRecord) : String :=
  rs.foldl (fun acc r => (f r).getD acc) "N/A"

/-- The two slots of one category. -/
def slotPair (c : TopicCat) (st : ChatState) : String × String :=
  match c with
  | .insulation => (st.design_thickness, st.required_thickness)
  | .seismic => (st.design_seismic, st.required_seismic)
  | .emergency => (st.design_hours, st.required_hours)
  | .pumps => (st.design_pumps, st.required_pumps)

/-- Number of records whose `compliance_status` equals `Compliant`
(`sum(1 for r in compliance_results if ...)`). -/
def countCompliant (compliance_results : List ResultRecord) : ℕ :=
  compliance_results.countP (fun r => r.compliance_status == some "Compliant")

/-- The compliance percentage in tenths, rounded to nearest with ties
to even: the value printed by the `:.1f` formatting of the Python
float `compliant_count / total_checks * 100` (exact on the realistic
magnitudes handled here); `0` for an empty batch, as in the source. -/
def scoreTenths (compliant total : ℕ) : ℕ :=
  if total = 0 then 0
  else
    let num := compliant * 1000
    let q := num / total
    let r := num % total
    if 2 * r < total then q
    else if total < 2 * r then q + 1
    else if q % 2 = 0 then q else q + 1

/-- The string `f"{compliance_score:.1f}"`. -/
def fmtScore (compliant total : ℕ) : String :=
  let n := scoreTenths compliant total
  Nat.repr (n / 10) ++ "." ++ Nat.repr (n % 10)

/-- Numeric value of a captured digit string; the value of Python
`float` on the strings captured by `(\d+)`. -/
def natOfDigits (s : String) : ℕ :=
  s.data.foldl (fun n c => n * 10 + (c.toNat - 48)) 0

/-- Template of the `compliance` topic response. -/
def complianceResponse (score : String) (issues : ℕ) : String :=
  "Based on the analysis, the overall compliance score is " ++ score ++
    "%. " ++ Nat.repr issues ++ " issues were found."

/-- Template of the `insulation` topic response. -/
def insulationResponse (design_thickness required_thickness : String) : String :=
  "The design specifies " ++ design_thickness ++
    "mm insulation thickness, while regulations require minimum " ++
    required_thickness ++ "mm."

/-- Template of the `seismic` topic response. -/
def seismicResponse (design_seismic required_seismic : String) : String :=
  "The design can withstand " ++ design_seismic ++
    "g seismic events, while regulations require minimum " ++
    required_seismic ++ "g."

/-- Template of the `emergency` topic response. -/
def emergencyResponse (design_hours required_hours meets : String) : String :=
  "The emergency cooling system can operate for " ++ design_hours ++
    " hours without external power, which " ++ meets ++
    " the required " ++ required_hours ++ " hours."

/-- Template of the `pumps` topic response. -/
def pumpsResponse (design_pumps required_pumps : String) : String :=
  "The containment spray system has " ++ design_pumps ++
    " pumps, while regulations require minimum " ++ required_pumps ++
    " pumps."

/-- The fixed help message for unrecognized question topics. -/
def helpResponse : String :=
  "I can help you with questions about compliance scores, insulation thickness, seismic resistance, emergency power requirements, and containment pumps. Please ask a specific question about these topics."

/-- The keyword groups of the question dispatch, in source order. -/
def complianceWords : List String := ["compliance", "score", "overall", "result"]

/-- Keyword group of the insulation topic. -/
def insulationWords : List String := ["insulation", "thickness"]

/-- Keyword group of the seismic topic. -/
def seismicWords : List String := ["seismic", "earthquake"]

/-- Keyword group of the emergency topic. -/
def emergencyWords : List String := ["emergency", "power", "hours"]

/-- Keyword group of the pumps topic. -/
def pumpsWords : List String := ["pumps", "containment"]

/-- Embedding of `chat_with_documents` (`src/app.py` lines 39-134).
The `design_text` and `regulations_text` parameters are accepted, as
in the source, but the body never reads them. -/
def chat_with_documents (user_question design_text regulations_text : String)
    (compliance_results : List ResultRecord) : PyResult String :=
  let total_checks := compliance_results.length
  let compliant_count := countCompliant compliance_results
  let issues_count := total_checks - compliant_count
  match scanResults initChatState compliance_results with
  | .exn e => .exn e
  | .ok st =>
    let question_lower := lowerData user_question
    if containsAnyWord complianceWords question_lower then
      .ok (complianceResponse (fmtScore compliant_count total_checks) issues_count)
    else if containsAnyWord insulationWords question_lower then
      .ok (insulationResponse st.design_thickness st.required_thickness)
    else if containsAnyWord seismicWords question_lower then
      .ok (seismicResponse st.design_seismic st.required_seismic)
    else if containsAnyWord emergencyWords question_lower then
      let meets :=
        if st.design_hours ≠ "N/A" ∧ st.required_hours ≠ "N/A" ∧
            natOfDigits st.required_hours ≤ natOfDigits st.design_hours then
          "meets"
        else
          "does not meet"
      .ok (emergencyResponse st.design_hours st.required_hours meets)
    else if containsAnyWord pumpsWords question_lower then
      .ok (pumpsResponse st.design_pumps st.required_pumps)
    else
      .ok helpResponse

/-- A compliance check result as consumed by the benchmark harness: a
dict whose `compliance_status` key may be absent
(`result.get("compliance_status", "Unknown")`). -/
structure CheckOutcome where
  compliance_status : Option String

/-- One predefined benchmark test case (`_load_test_cases`). -/
structure BenchCase where
  design : String
  regulation : String
  expected_status : String
  category : String

/-- One scored case of `run_compliance_benchmark`. -/
structure CaseResult where
  category : String
  expected_status : String
  actual_status : String
  is_correct : Bool
  deriving DecidableEq

/-- Scoring of one test case by `run_compliance_benchmark`
(`src/benchmark.py` lines 148-176): run the checker, read the status
with default `Unknown`, and mark the case correct exactly when the
status equals the expected one. -/
def scoreCase (checker : String → String → CheckOutcome) (tc : BenchCase) : CaseResult :=
  let result := checker tc.design tc.regulation
  let actual_status := result.compliance_status.getD "Unknown"
  { category := tc.category
    expected_status := tc.expected_status
    actual_status := actual_status
    is_correct := actual_status == tc.expected_status }

/-- The scored case list of one benchmark run. -/
def runBenchCases (checker : String → String → CheckOutcome)
    (test_cases : List BenchCase) : List CaseResult :=
  test_cases.map (scoreCase checker)

/-- One update of the category dictionary of
`_calculate_summary_metrics`: entries are `(category, total, correct)`
in first-appearance order, the matching entry is incremented in place,
a missing category is appended with `total = 1`. -/
def bumpCategory : List (String × ℕ × ℕ) → String → Bool → List (String × ℕ × ℕ)
  | [], category, corr => [(category, 1, if corr then 1 else 0)]
  | (c, t, k) :: rest, category, corr =>
    if c = category then (c, t + 1, if corr then k + 1 else k) :: rest
    else (c, t, k) :: bumpCategory rest category corr

/-- The category dictionary built by the first loop of
`_calculate_summary_metrics` (`src/benchmark.py` lines 214-222). -/
def categoryTally (cases : List CaseResult) : List (String × ℕ × ℕ) :=
  cases.foldl (fun acc x => bumpCategory acc x.category x.is_correct) []

/-- The per-category accuracy pass of `_calculate_summary_metrics`
(lines 225-228): each entry becomes
`(category, total, correct, correct / total * 100)`, with `0` for an
empty total. -/
def categoryPerformance (cases : List CaseResult) : List (String × ℕ × ℕ × ℚ) :=
  (categoryTally cases).map
    (fun e => (e.1, e.2.1, e.2.2,
      if 0 < e.2.1 then (e.2.2 : ℚ) / (e.2.1 : ℚ) * 100 else 0))

/-- Number of correct cases
(`sum(1 for case in test_cases if case.get("is_correct", False))`). -/
def correctCount (cases : List CaseResult) : ℕ :=
  cases.countP (fun x => x.is_correct)

/-- Overall accuracy of `_calculate_summary_metrics` (line 211):
`correct_cases / total_cases * 100`, `0` when there are no cases. -/
def overallAccuracy (cases : List CaseResult) : ℚ :=
  if 0 < cases.length then (correctCount cases : ℚ) / (cases.length : ℚ) * 100
  else 0

/-- The three-valued compliance verdict of the spec (§3). -/
inductive Verdict where
  | Compliant
  | NonCompliant
  | Unknown
  deriving DecidableEq

/-- The registered requirement categories of the spec (§4.2). -/
inductive SpecCategory where
  | insulationThickness
  | seismicResistance
  | emergencyPowerDuration
  | containmentPumpCount
  | materialGrade
  deriving DecidableEq

/-- An extracted claim value of the spec (§3): a parsed number, a
normalized material grade family token, or the absent sentinel. -/
inductive ClaimValue where
  | num (value : ℚ)
  | grade (family : String)
  | absent
  deriving DecidableEq

/-- Modelled from the spec: the grade-family equivalence classes of
the material category (§4.3 set-membership with exact or
equivalence-class match; the stainless-steel 300-series example of
§4.2); `compliance_checker.py`, which holds the Comparator, is not
among the provided sources. -/
def gradeClasses : List (List String) :=
  [["300-series", "304", "316", "316l"]]

/-- Modelled from the spec: the accepted grade family set of a
requirement claim, the equivalence class of its family token, or the
token alone when no class lists it. -/
def acceptedFamilies (required : String) : List String :=
  match gradeClasses.find? (fun cls => cls.contains required) with
  | some cls => cls
  | none => [required]

/-- The categories compared with the meets-or-exceeds rule (§4.3). -/
def numericMeetsCategories : List SpecCategory :=
  [.insulationThickness, .seismicResistance, .emergencyPowerDuration,
   .containmentPumpCount]

/-- Modelled from the spec: the Comparator (§4.3),
`compare(category, design_claim, requirement_claim) -> (Verdict,
reasoning_text)` of the missing `compliance_checker.py`: an absent
claim on either side gives `Unknown`; the numeric categories are
Compliant exactly when the design value meets or exceeds the required
value; the material category is Compliant exactly when the design
grade family belongs to the requirement's accepted set; anything else
has no registered rule and gives `Unknown`. -/
def compareClaims (category : SpecCategory)
    (design_claim requirement_claim : ClaimValue) : Verdict × String :=
  match design_claim, requirement_claim with
  | .absent, _ => (.Unknown, "the design claim could not be located")
  | _, .absent => (.Unknown, "the requirement claim could not be located")
  | .num d, .num r =>
    if category ∈ numericMeetsCategories then
      if r ≤ d then
        (.Compliant, "design value " ++ toString d ++
          " meets or exceeds the required minimum of " ++ toString r)
      else
        (.NonCompliant, "design value " ++ toString d ++
          " is below the required minimum of " ++ toString r)
    else
      (.Unknown, "no registered comparison rule for this category")
  | .grade d, .grade r =>
    if category = .materialGrade then
      if (acceptedFamilies r).contains d then
        (.Compliant, "design grade family " ++ d ++
          " is in the accepted set of " ++ r)
      else
        (.NonCompliant, "design grade family " ++ d ++
          " is not in the accepted set of " ++ r)
    else
      (.Unknown, "no registered comparison rule for this category")
  | _, _ => (.Unknown, "the extracted claims are not comparable")

theorem insulationUpdate_eq (st : ChatState) (rt dt : List Char) :
    insulationUpdate st rt dt =
      { st with
        reImported := true
        required_thickness := (findNumBefore ["mm"] rt).getD st.required_thickness
        design_thickness := (findNumBefore ["mm"] dt).getD st.design_thickness } := by
  unfold insulationUpdate
  rcases findNumBefore ["mm"] rt with _ | v <;>
    rcases findNumBefore ["mm"] dt with _ | w <;> rfl

theorem seismicUpdate_eq (st : ChatState) (rt dt : List Char) :
    seismicUpdate st rt dt =
      { st with
        required_seismic := (findDecimalG rt).getD st.required_seismic,
        design_seismic := (findDecimalG dt).getD st.design_seismic } := by
  unfold seismicUpdate
  rcases findDecimalG rt with _ | v <;> rcases findDecimalG dt with _ | w <;> rfl

theorem hoursUpdate_eq (st : ChatState) (rt dt : List Char) :
    hoursUpdate st rt dt =
      { st with
        required_hours := (findNumBefore ["hours"] rt).getD st.required_hours,
        design_hours := (findNumBefore ["hours"] dt).getD st.design_hours } := by
  unfold hoursUpdate
  rcases findNumBefore ["hours"] rt with _ | v <;>
    rcases findNumBefore ["hours"] dt with _ | w <;> rfl

theorem pumpsUpdate_eq (st : ChatState) (rt dt : List Char) :
    pumpsUpdate st rt dt =
      { st with
        required_pumps := (findNumBefore ["independent", "separate"] rt).getD st.required_pumps,
        design_pumps := (findNumBefore ["independent", "separate"] dt).getD st.design_pumps } := by
  unfold pumpsUpdate
  rcases findNumBefore ["independent", "separate"] rt with _ | v <;>
    rcases findNumBefore ["independent", "separate"] dt with _ | w <;> rfl

theorem stepPure_eq (st : ChatState) (r : ResultRecord) :
    stepPure st r =
      { reImported := st.reImported ||
          (containsSub "insulation".data (regLower r) &&
            containsSub "thickness".data (regLower r)),
        design_thickness := (desThicknessOf r).getD st.design_thickness,
        required_thickness := (reqThicknessOf r).getD st.required_thickness,
        design_seismic := (desSeismicOf r).getD st.design_seismic,
        required_seismic := (reqSeismicOf r).getD st.required_seismic,
        design_hours := (desHoursOf r).getD st.design_hours,
        required_hours := (reqHoursOf r).getD st.required_hours,
        design_pumps := (desPumpsOf r).getD st.design_pumps,
        required_pumps := (reqPumpsOf r).getD st.required_pumps } := by
  unfold stepPure desThicknessOf reqThicknessOf desSeismicOf reqSeismicOf
    desHoursOf reqHoursOf desPumpsOf reqPumpsOf recordBranch
  cases h1 : (containsSub "insulation".data (regLower r) &&
      containsSub "thickness".data (regLower r)) <;>
  cases h2 : containsSub "seismic".data (regLower r) <;>
  cases h3 : (containsSub "hours".data (regLower r) &&
      containsSub "emergency".data (regLower r)) <;>
  cases h4 : (containsSub "pumps".data (regLower r) &&
      containsSub "containment".data (regLower r)) <;>
    simp [h1, h2, h3, h4, insulationUpdate_eq, seismicUpdate_eq, hoursUpdate_eq,
      pumpsUpdate_eq]

theorem stepRecord_ok {st st2 : ChatState} {r : ResultRecord}
    (h : stepRecord st r = .ok st2) : st2 = stepPure st r := by
  unfold stepRecord at h
  unfold stepPure
  cases h1 : (containsSub "insulation".data (regLower r) &&
      containsSub "thickness".data (regLower r)) <;>
  cases h2 : containsSub "seismic".data (regLower r) <;>
  cases h3 : (containsSub "hours".data (regLower r) &&
      containsSub "emergency".data (regLower r)) <;>
  cases h4 : (containsSub "pumps".data (regLower r) &&
      containsSub "containment".data (regLower r)) <;>
  cases h5 : st.reImported <;> simp_all <;> split_ifs <;> simp_all

theorem scanResults_ok :
    ∀ (rs : List ResultRecord) (st st' : ChatState),
      scanResults st rs = .ok st' → st' = scanPure st rs := by
  intro rs
  induction rs with
  | nil =>
    intro st st' h
    simp only [scanResults] at h
    cases h
    rfl
  | cons r rs ih =>
    intro st st' h
    simp only [scanResults] at h
    cases hs : stepRecord st r with
    | ok st2 =>
      rw [hs] at h
      have h2 := ih st2 st' h
      have h3 := stepRecord_ok hs
      simp [scanPure, List.foldl_cons] at h2 ⊢
      rw [h2, h3]
    | exn e =>
      rw [hs] at h
      cases h

theorem foldl_getD_slot (proj : ChatState → String) (f : ResultRecord → Option String)
    (hstep : ∀ st r, proj (stepPure st r) = (f r).getD (proj st)) :
    ∀ (rs : List ResultRecord) (st : ChatState),
      proj (scanPure st rs) = rs.foldl (fun acc r => (f r).getD acc) (proj st) := by
  intro rs
  induction rs with
  | nil => intro st; rfl
  | cons r rs ih =>
    intro st
    have h1 : scanPure st (r :: rs) = scanPure (stepPure st r) rs := by
      simp [scanPure, List.foldl_cons]
    rw [h1, ih (stepPure st r), hstep st r]
    rfl

/-- After a scan that returns normally, every slot holds the last
extracted candidate value of its category (or the placeholder). -/
theorem scan_ok_slots {rs : List ResultRecord} {st : ChatState}
    (h : scanResults initChatState rs = .ok st) :
    st.design_thickness = lastExtracted desThicknessOf rs ∧
    st.required_thickness = lastExtracted reqThicknessOf rs ∧
    st.design_seismic = lastExtracted desSeismicOf rs ∧
    st.required_seismic = lastExtracted reqSeismicOf rs ∧
    st.design_hours = lastExtracted desHoursOf rs ∧
    st.required_hours = lastExtracted reqHoursOf rs ∧
    st.design_pumps = lastExtracted desPumpsOf rs ∧
    st.required_pumps = lastExtracted reqPumpsOf rs := by
  have he := scanResults_ok rs initChatState st h
  subst he
  refine ⟨?_, ?_, ?_, ?_, ?_, ?_, ?_, ?_⟩ <;>
    first
    | exact foldl_getD_slot (fun s => s.design_thickness) desThicknessOf
        (fun st r => by rw [stepPure_eq]) rs initChatState
    | exact foldl_getD_slot (fun s => s.required_thickness) reqThicknessOf
        (fun st r => by rw [stepPure_eq]) rs initChatState
    | exact foldl_getD_slot (fun s => s.design_seismic) desSeismicOf
        (fun st r => by rw [stepPure_eq]) rs initChatState
    | exact foldl_getD_slot (fun s => s.required_seismic) reqSeismicOf
        (fun st r => by rw [stepPure_eq]) rs initChatState
    | exact foldl_getD_slot (fun s => s.design_hours) desHoursOf
        (fun st r => by rw [stepPure_eq]) rs initChatState
    | exact foldl_getD_slot (fun s => s.required_hours) reqHoursOf
        (fun st r => by rw [stepPure_eq]) rs initChatState
    | exact foldl_getD_slot (fun s => s.design_pumps) desPumpsOf
        (fun st r => by rw [stepPure_eq]) rs initChatState
    | exact foldl_getD_slot (fun s => s.required_pumps) reqPumpsOf
        (fun st r => by rw [stepPure_eq]) rs initChatState

/-- A successful scan of `findNumBefore` decomposes the text: the
captured digits are a non-empty digit run followed, across whitespace
only, by one of the required literal tokens. -/
theorem findNumBefore_some_decomp (tokens : List String) :
    ∀ (s : List Char) (v : String), findNumBefore tokens s = some v →
      ∃ pre ds ws suf, s = pre ++ ds ++ ws ++ suf ∧ ds ≠ [] ∧
        (∀ c ∈ ds, c.isDigit = true) ∧ (∀ c ∈ ws, isSpaceChar c = true) ∧
        (∃ t ∈ tokens, t.data.isPrefixOf suf = true) ∧ v = String.mk ds := by
  intro s
  induction s with
  | nil => intro v h; simp [findNumBefore] at h
  | cons c rest ih =>
    intro v h
    simp only [findNumBefore] at h
    by_cases hc : c.isDigit = true
    · rw [if_pos hc] at h
      by_cases ht : tokens.any
          (fun t => t.data.isPrefixOf
            (((c :: rest).dropWhile Char.isDigit).dropWhile isSpaceChar)) = true
      · rw [if_pos ht] at h
        refine ⟨[], (c :: rest).takeWhile Char.isDigit,
          ((c :: rest).dropWhile Char.isDigit).takeWhile isSpaceChar,
          ((c :: rest).dropWhile Char.isDigit).dropWhile isSpaceChar,
          ?_, ?_, ?_, ?_, ?_, ?_⟩
        · rw [List.nil_append, List.append_assoc,
            List.takeWhile_append_dropWhile, List.takeWhile_append_dropWhile]
        · intro hnil
          rw [List.takeWhile_cons, if_pos hc] at hnil
          exact List.cons_ne_nil _ _ hnil
        · intro x hx; exact List.mem_takeWhile_imp hx
        · intro x hx; exact List.mem_takeWhile_imp hx
        · exact List.any_eq_true.mp ht
        · cases h; rfl
      · rw [if_neg ht] at h
        obtain ⟨pre, ds, ws, suf, hsplit, hds, hdig, hws, htok, hv⟩ := ih v h
        exact ⟨c :: pre, ds, ws, suf, by simp [hsplit, List.append_assoc], hds,
          hdig, hws, htok, hv⟩
    · rw [if_neg hc] at h
      obtain ⟨pre, ds, ws, suf, hsplit, hds, hdig, hws, htok, hv⟩ := ih v h
      exact ⟨c :: pre, ds, ws, suf, by simp [hsplit, List.append_assoc], hds,
        hdig, hws, htok, hv⟩

/-- The rounded tenths value is within half a tenth of the exact
rational percentage times ten. -/
theorem scoreTenths_close (c t : ℕ) (h : 0 < t) :
    |(scoreTenths c t : ℚ) - (c : ℚ) / (t : ℚ) * 100 * 10| ≤ 1 / 2 := by
  have ht0 : t ≠ 0 := Nat.pos_iff_ne_zero.mp h
  have htQ : (0 : ℚ) < (t : ℚ) := by exact_mod_cast h
  have htQ' : (t : ℚ) ≠ 0 := ne_of_gt htQ
  simp only [scoreTenths]
  rw [if_neg ht0]
  have hnd : t * (c * 1000 / t) + c * 1000 % t = c * 1000 := Nat.div_add_mod _ _
  have hrt : c * 1000 % t < t := Nat.mod_lt _ h
  set q := c * 1000 / t with hqdef
  set r := c * 1000 % t with hrdef
  have h1000 : (c : ℚ) * 1000 = (t : ℚ) * (q : ℚ) + (r : ℚ) := by
    exact_mod_cast hnd.symm
  have key : (c : ℚ) / (t : ℚ) * 100 * 10 = (q : ℚ) + (r : ℚ) / (t : ℚ) := by
    field_simp
    linarith [h1000]
  have hge0 : (0 : ℚ) ≤ (r : ℚ) / (t : ℚ) :=
    div_nonneg (by positivity) (le_of_lt htQ)
  have hle1 : (r : ℚ) / (t : ℚ) ≤ 1 := by
    rw [div_le_one htQ]
    exact_mod_cast le_of_lt hrt
  rw [key]
  split_ifs with h1 h2 h3
  · have hle : (r : ℚ) / (t : ℚ) ≤ 1 / 2 := by
      rw [div_le_div_iff htQ (by norm_num : (0:ℚ) < 2)]
      have : (2 : ℚ) * (r : ℚ) ≤ (t : ℚ) := by exact_mod_cast le_of_lt h1
      linarith
    rw [abs_le]
    constructor <;> linarith
  · have hge : 1 / 2 ≤ (r : ℚ) / (t : ℚ) := by
      rw [le_div_iff htQ]
      have : (t : ℚ) ≤ 2 * (r : ℚ) := by exact_mod_cast le_of_lt h2
      linarith
    push_cast
    rw [abs_le]
    constructor <;> linarith
  · have h4 : 2 * r = t := by omega
    have heq : (r : ℚ) / (t : ℚ) = 1 / 2 := by
      rw [div_eq_div_iff htQ' (by norm_num : (2:ℚ) ≠ 0)]
      have : (2 : ℚ) * (r : ℚ) = (t : ℚ) := by exact_mod_cast h4
      linarith
    rw [heq, abs_le]
    constructor <;> linarith
  · have h4 : 2 * r = t := by omega
    have heq : (r : ℚ) / (t : ℚ) = 1 / 2 := by
      rw [div_eq_div_iff htQ' (by norm_num : (2:ℚ) ≠ 0)]
      have : (2 : ℚ) * (r : ℚ) = (t : ℚ) := by exact_mod_cast h4
      linarith
    push_cast
    rw [heq, abs_le]
    constructor <;> linarith

/-- Lookup in the category dictionary (entries keyed by category). -/
def lookupTally : List (String × ℕ × ℕ) → String → Option (ℕ × ℕ)
  | [], _ => none
  | (c, t, k) :: rest, cat => if c = cat then some (t, k) else lookupTally rest cat

/-- Lookup in the per-category performance list. -/
def lookupPerformance : List (String × ℕ × ℕ × ℚ) → String → Option (ℕ × ℕ × ℚ)
  | [], _ => none
  | (c, t, k, a) :: rest, cat =>
    if c = cat then some (t, k, a) else lookupPerformance rest cat

/-- Number of scored cases of one category. -/
def countInCategory (cases : List CaseResult) (cat : String) : ℕ :=
  (cases.filter (fun x => x.category == cat)).length

/-- Number of correct scored cases of one category. -/
def correctInCategory (cases : List CaseResult) (cat : String) : ℕ :=
  (cases.filter (fun x => x.category == cat)).countP (fun x => x.is_correct)

theorem lookupTally_bump_self (cat : String) (corr : Bool) :
    ∀ (acc : List (String × ℕ × ℕ)) (t k : ℕ),
      lookupTally acc cat = some (t, k) →
      lookupTally (bumpCategory acc cat corr) cat =
        some (t + 1, if corr then k + 1 else k) := by
  intro acc
  induction acc with
  | nil => intro t k h; simp [lookupTally] at h
  | cons e rest ih =>
    intro t k h
    obtain ⟨c, t0, k0⟩ := e
    by_cases hc : c = cat
    · subst hc
      simp [lookupTally] at h
      simp [bumpCategory, lookupTally, h.1, h.2]
    · simp [lookupTally, hc] at h
      simp [bumpCategory, lookupTally, hc, ih t k h]

theorem lookupTally_bump_new (cat : String) (corr : Bool) :
    ∀ (acc : List (String × ℕ × ℕ)),
      lookupTally acc cat = none →
      lookupTally (bumpCategory acc cat corr) cat =
        some (1, if corr then 1 else 0) := by
  intro acc
  induction acc with
  | nil => intro h; simp [bumpCategory, lookupTally]
  | cons e rest ih =>
    intro h
    obtain ⟨c, t0, k0⟩ := e
    by_cases hc : c = cat
    · subst hc; simp [lookupTally] at h
    · simp [lookupTally, hc] at h
      simp [bumpCategory, lookupTally, hc, ih h]

theorem lookupTally_bump_other (cat cat2 : String) (corr : Bool) (hne : cat2 ≠ cat) :
    ∀ acc : List (String × ℕ × ℕ),
      lookupTally (bumpCategory acc cat corr) cat2 = lookupTally acc cat2 := by
  intro acc
  induction acc with
  | nil =>
    simp [bumpCategory, lookupTally]
    exact fun h => hne h.symm
  | cons e rest ih =>
    obtain ⟨c, t0, k0⟩ := e
    by_cases hc : c = cat
    · subst hc
      simp [bumpCategory, lookupTally, Ne.symm hne]
    · simp [bumpCategory, lookupTally, hc, ih]

theorem tally_fold_present (cat : String) :
    ∀ (cases : List CaseResult) (acc : List (String × ℕ × ℕ)) (t k : ℕ),
      lookupTally acc cat = some (t, k) →
      lookupTally
          (cases.foldl (fun a x => bumpCategory a x.category x.is_correct) acc) cat =
        some (t + countInCategory cases cat, k + correctInCategory cases cat) := by
  intro cases
  induction cases with
  | nil =>
    intro acc t k h
    simpa [countInCategory, correctInCategory] using h
  | cons x rest ih =>
    intro acc t k h
    by_cases hx : x.category = cat
    · have hb := lookupTally_bump_self cat x.is_correct acc t k h
      rw [← hx] at hb
      have h2 := ih (bumpCategory acc x.category x.is_correct) (t + 1)
        (if x.is_correct then k + 1 else k) (by rw [hx] at hb ⊢; exact hb)
      simp only [List.foldl_cons]
      rw [h2]
      have hcc : countInCategory (x :: rest) cat = countInCategory rest cat + 1 := by
        simp [countInCategory, List.filter_cons, hx] <;> omega
      have hkc : correctInCategory (x :: rest) cat =
          correctInCategory rest cat + (if x.is_correct then 1 else 0) := by
        by_cases hcorr : x.is_correct = true <;>
          simp [correctInCategory, List.filter_cons, List.countP_cons, hx, hcorr]
      rw [hcc, hkc]
      by_cases hcorr : x.is_correct = true <;> simp [hcorr] <;> omega
    · have hb := lookupTally_bump_other x.category cat x.is_correct (Ne.symm hx) acc
      have h2 := ih (bumpCategory acc x.category x.is_correct) t k (by rw [hb]; exact h)
      simp only [List.foldl_cons]
      rw [h2]
      have hbx : (x.category == cat) = false := by simp [hx]
      simp [countInCategory, correctInCategory, List.filter_cons, hbx]

theorem tally_fold_absent (cat : String) :
    ∀ (cases : List CaseResult) (acc : List (String × ℕ × ℕ)),
      lookupTally acc cat = none → (∃ x ∈ cases, x.category = cat) →
      lookupTally
          (cases.foldl (fun a x => bumpCategory a x.category x.is_correct) acc) cat =
        some (countInCategory cases cat, correctInCategory cases cat) := by
  intro cases
  induction cases with
  | nil => intro acc _ hmem; simp at hmem
  | cons x rest ih =>
    intro acc h hmem
    by_cases hx : x.category = cat
    · have hb := lookupTally_bump_new cat x.is_correct acc h
      rw [← hx] at hb
      have h2 := tally_fold_present cat rest
        (bumpCategory acc x.category x.is_correct) 1
        (if x.is_correct then 1 else 0) (by rw [hx] at hb ⊢; exact hb)
      simp only [List.foldl_cons]
      rw [h2]
      have hcc : countInCategory (x :: rest) cat = countInCategory rest cat + 1 := by
        simp [countInCategory, List.filter_cons, hx] <;> omega
      have hkc : correctInCategory (x :: rest) cat =
          correctInCategory rest cat + (if x.is_correct then 1 else 0) := by
        by_cases hcorr : x.is_correct = true <;>
          simp [correctInCategory, List.filter_cons, List.countP_cons, hx, hcorr]
      rw [hcc, hkc]
      by_cases hcorr : x.is_correct = true <;> simp [hcorr] <;> omega
    · have hb := lookupTally_bump_other x.category cat x.is_correct (Ne.symm hx) acc
      have hmem2 : ∃ y ∈ rest, y.category = cat := by
        obtain ⟨y, hy, hyc⟩ := hmem
        rcases List.mem_cons.mp hy with h1 | h1
        · subst h1; exact absurd hyc hx
        · exact ⟨y, h1, hyc⟩
      have h2 := ih (bumpCategory acc x.category x.is_correct) (by rw [hb]; exact h) hmem2
      simp only [List.foldl_cons]
      rw [h2]
      have hbx : (x.category == cat) = false := by simp [hx]
      simp [countInCategory, correctInCategory, List.filter_cons, hbx]

/-- The category dictionary of the summary holds exactly the filter
counts of each category that appears among the scored cases. -/
theorem categoryTally_spec (cases : List CaseResult) (cat : String)
    (hmem : ∃ x ∈ cases, x.category = cat) :
    lookupTally (categoryTally cases) cat =
      some (countInCategory cases cat, correctInCategory cases cat) :=
  tally_fold_absent cat cases [] rfl hmem

theorem lookupPerformance_map (cat : String) :
    ∀ l : List (String × ℕ × ℕ),
      lookupPerformance
          (l.map (fun e => (e.1, e.2.1, e.2.2,
            if 0 < e.2.1 then (e.2.2 : ℚ) / (e.2.1 : ℚ) * 100 else 0))) cat =
        (lookupTally l cat).map
          (fun p => (p.1, p.2, if 0 < p.1 then (p.2 : ℚ) / (p.1 : ℚ) * 100 else 0)) := by
  intro l
  induction l with
  | nil => simp [lookupPerformance, lookupTally]
  | cons e rest ih =>
    obtain ⟨c, t0, k0⟩ := e
    by_cases hc : c = cat <;> simp [lookupPerformance, lookupTally, hc, ih]

theorem countInCategory_pos {cases : List CaseResult} {cat : String}
    (hmem : ∃ x ∈ cases, x.category = cat) : 0 < countInCategory cases cat := by
  obtain ⟨x, hx, hxc⟩ := hmem
  have : x ∈ cases.filter (fun y => y.category == cat) :=
    List.mem_filter.mpr ⟨hx, by simp [hxc]⟩
  have := List.length_pos.mpr (List.ne_nil_of_mem this)
  simpa [countInCategory] using this

/-- C1: for every requirement unit with a recognized numeric category
(insulation thickness, seismic resistance, emergency power duration,
containment pump count) where both claims are non-absent, the
Comparator returns Compliant iff the design value is greater than or
equal to the required value (boundary equality Compliant) and
Non-Compliant otherwise; for material grade, Compliant iff the design
grade family belongs to the requirement's accepted grade family set,
Non-Compliant otherwise. -/
theorem claim_C1_comparator :
    (∀ (category : SpecCategory) (d r : ℚ), category ∈ numericMeetsCategories →
      (((compareClaims category (.num d) (.num r)).1 = .Compliant) ↔ r ≤ d) ∧
      (((compareClaims category (.num d) (.num r)).1 = .NonCompliant) ↔ ¬ r ≤ d)) ∧
    (∀ d r : String,
      (((compareClaims .materialGrade (.grade d) (.grade r)).1 = .Compliant) ↔
        d ∈ acceptedFamilies r) ∧
      (((compareClaims .materialGrade (.grade d) (.grade r)).1 = .NonCompliant) ↔
        d ∉ acceptedFamilies r)) := by
  constructor
  · intro category d r hcat
    simp only [compareClaims, if_pos hcat]
    split_ifs with h <;> simp [h]
  · intro d r
    simp only [compareClaims, if_pos rfl]
    split_ifs with h <;> simp_all

/-- Witness for C1: boundary and strict cases of the numeric rule and
a grade-set membership case. -/
theorem claim_C1_comparator_witness :
    (compareClaims .emergencyPowerDuration (.num 96) (.num 72)).1 = .Compliant ∧
    (compareClaims .insulationThickness (.num 50) (.num 50)).1 = .Compliant ∧
    (compareClaims .insulationThickness (.num 45) (.num 50)).1 = .NonCompliant ∧
    (compareClaims .materialGrade (.grade "316l") (.grade "300-series")).1 = .Compliant := by
  refine ⟨?_, ?_, ?_, ?_⟩
  · exact (claim_C1_comparator.1 .emergencyPowerDuration 96 72 (by decide)).1.mpr
      (by norm_num)
  · exact (claim_C1_comparator.1 .insulationThickness 50 50 (by decide)).1.mpr le_rfl
  · exact (claim_C1_comparator.1 .insulationThickness 45 50 (by decide)).2.mpr
      (by norm_num)
  · exact (claim_C1_comparator.2 "316l" "300-series").1.mpr (by decide)

/-- C2: refuted by the code — on a batch whose first category-matching
record is a seismic record, `chat_with_documents` raises
`UnboundLocalError` instead of returning a response string, because
the source executes `import re` only inside the insulation branch of
the extraction loop. -/
theorem claim_C2_crash :
    chat_with_documents "hello" "" ""
      [{ compliance_status := none, regulation_text := some "seismic",
         design_text := some "" }] =
      .exn unboundReMessage := by decide

/-- C10: the response of `chat_with_documents` depends only on the
question and the batch of result records; the `design_text` and
`regulations_text` arguments never influence it, hence two calls with
the same question and batch return the same text. -/
theorem claim_C10_same_response :
    ∀ (user_question design_text regulations_text design_text2
        regulations_text2 : String)
      (compliance_results : List ResultRecord),
      chat_with_documents user_question design_text regulations_text
          compliance_results =
        chat_with_documents user_question design_text2 regulations_text2
          compliance_results := by
  intro q d r d2 r2 rs
  rfl

/-- Demonstration batch of four result records with exactly one
Compliant status and no extractable texts. -/
def demoBatchC4 : List ResultRecord :=
  [{ compliance_status := some "Compliant", regulation_text := none,
     design_text := none },
   { compliance_status := some "Non-Compliant", regulation_text := none,
     design_text := none },
   { compliance_status := some "Non-Compliant", regulation_text := none,
     design_text := none },
   { compliance_status := some "Unknown", regulation_text := none,
     design_text := none }]

/-- C4: for the compliance topic the response renders the percentage
compliant_count / total_count * 100 (to one decimal; 0 for an empty
batch) and issues = total_count - compliant_count; in particular a
batch of 4 results with exactly one Compliant yields percentage 25.0
and 3 issues. -/
theorem claim_C4_compliance_topic :
    (∀ (user_question design_text regulations_text : String)
        (rs : List ResultRecord) (st : ChatState),
        scanResults initChatState rs = .ok st →
        containsAnyWord complianceWords (lowerData user_question) = true →
        chat_with_documents user_question design_text regulations_text rs =
          .ok (complianceResponse (fmtScore (countCompliant rs) rs.length)
            (rs.length - countCompliant rs))) ∧
    (∀ c t : ℕ, 0 < t →
      |(scoreTenths c t : ℚ) - (c : ℚ) / (t : ℚ) * 100 * 10| ≤ 1 / 2) ∧
    fmtScore (countCompliant []) (List.length ([] : List ResultRecord)) = "0.0" ∧
    chat_with_documents "what is the compliance score" "" "" demoBatchC4 =
      .ok "Based on the analysis, the overall compliance score is 25.0%. 3 issues were found." := by
  refine ⟨?_, scoreTenths_close, by decide, by decide⟩
  intro q dt rt rs st hscan hq
  simp only [chat_with_documents, hscan, hq]
  simp

/-- Witness for C4 on the four-record demonstration batch. -/
theorem claim_C4_compliance_topic_witness :
    chat_with_documents "score" "a" "b" demoBatchC4 =
      .ok (complianceResponse
        (fmtScore (countCompliant demoBatchC4) demoBatchC4.length)
        (demoBatchC4.length - countCompliant demoBatchC4)) :=
  claim_C4_compliance_topic.1 "score" "a" "b" demoBatchC4 initChatState
    (by decide) (by decide)

/-- Demonstration batch: an insulation record followed by an
emergency-hours record (design 96, required 72). -/
def demoBatchC5 : List ResultRecord :=
  [{ compliance_status := none,
     regulation_text := some "Insulation thickness of at least 50 mm",
     design_text := some "insulation thickness 45 mm" },
   { compliance_status := none,
     regulation_text := some "emergency system must run 72 hours",
     design_text := some "can operate for 96 hours" }]

/-- C5: for the emergency-power topic the response states "meets"
exactly when both hour values are present (not the placeholder) and
the design value, compared numerically on the parsed values, is
greater than or equal to the required value (ties meet); in every
other case it states "does not meet". -/
theorem claim_C5_emergency_meets :
    ∀ (user_question design_text regulations_text : String)
      (rs : List ResultRecord) (st : ChatState),
      scanResults initChatState rs = .ok st →
      containsAnyWord complianceWords (lowerData user_question) = false →
      containsAnyWord insulationWords (lowerData user_question) = false →
      containsAnyWord seismicWords (lowerData user_question) = false →
      containsAnyWord emergencyWords (lowerData user_question) = true →
      ((st.design_hours ≠ "N/A" ∧ st.required_hours ≠ "N/A" ∧
          natOfDigits st.required_hours ≤ natOfDigits st.design_hours) →
        chat_with_documents user_question design_text regulations_text rs =
          .ok (emergencyResponse st.design_hours st.required_hours "meets")) ∧
      (¬ (st.design_hours ≠ "N/A" ∧ st.required_hours ≠ "N/A" ∧
          natOfDigits st.required_hours ≤ natOfDigits st.design_hours) →
        chat_with_documents user_question design_text regulations_text rs =
          .ok (emergencyResponse st.design_hours st.required_hours
            "does not meet")) := by
  intro q dt rt rs st hscan h1 h2 h3 h4
  refine ⟨fun hcond => ?_, fun hcond => ?_⟩
  · simp only [chat_with_documents, hscan, h1, h2, h3, h4, if_pos hcond]
    simp
  · simp only [chat_with_documents, hscan, h1, h2, h3, h4, if_neg hcond]
    simp

/-- Witness for C5 on the demonstration batch: 96 meets 72. -/
theorem claim_C5_emergency_meets_witness :
    chat_with_documents "emergency" "" "" demoBatchC5 =
      .ok (emergencyResponse "96" "72" "meets") :=
  (claim_C5_emergency_meets "emergency" "" "" demoBatchC5
      ⟨true, "45", "50", "N/A", "N/A", "96", "72", "N/A", "N/A"⟩
      (by decide) (by decide) (by decide) (by decide) (by decide)).1
    ⟨by decide, by decide, by decide⟩

/-- C6: refuted by the code — the question "hello" contains none of
the topic keywords, yet on a batch holding an emergency-hours record
the call raises `UnboundLocalError` (the `import re` slip of the
extraction loop) instead of returning the fixed help message, so the
help message is not returned for every batch. -/
theorem claim_C6_crash :
    chat_with_documents "hello" "" ""
      [{ compliance_status := none,
         regulation_text := some "emergency cooling must run for 72 hours",
         design_text := some "" }] = .exn unboundReMessage ∧
    (PyResult.exn unboundReMessage : PyResult String) ≠ .ok helpResponse := by
  decide

/-- First insulation record of the C3 batch: design 30, required 40. -/
def demoRecC3a : ResultRecord :=
  { compliance_status := none,
    regulation_text := some "insulation thickness of at least 40 mm",
    design_text := some "uses 30 mm thermal layers" }

/-- Second insulation record of the C3 batch: design 70, required 60. -/
def demoRecC3b : ResultRecord :=
  { compliance_status := none,
    regulation_text := some "insulation thickness 60 mm minimum",
    design_text := some "we install 70 mm" }

/-- Two-record batch in which both records offer insulation values. -/
def demoBatchC3 : List ResultRecord := [demoRecC3a, demoRecC3b]

/-- C3 counterexample: the first record scanned offers design 30 and
requirement 40, yet the insulation response renders 70 and 60, the
values of the LAST matching record, so the claim that the FIRST
non-absent values are rendered is false. -/
theorem claim_C3_counterexample :
    chat_with_documents "insulation" "" "" demoBatchC3 =
      .ok (insulationResponse "70" "60") ∧
    desThicknessOf demoRecC3a = some "30" ∧
    reqThicknessOf demoRecC3a = some "40" ∧
    insulationResponse "70" "60" ≠ insulationResponse "30" "40" := by
  decide

/-- If no record of the batch offers a candidate value, the slot keeps
the placeholder. -/
theorem lastExtracted_none (f : ResultRecord → Option String) :
    ∀ rs : List ResultRecord, (∀ r ∈ rs, f r = none) →
      lastExtracted f rs = "N/A" := by
  have general : ∀ (rs : List ResultRecord) (init : String),
      (∀ r ∈ rs, f r = none) →
      rs.foldl (fun acc r => (f r).getD acc) init = init := by
    intro rs
    induction rs with
    | nil => intro init _; rfl
    | cons r rest ih =>
      intro init h
      simp only [List.foldl_cons, h r (List.mem_cons_self r rest), Option.getD_none]
      exact ih init (fun x hx => h x (List.mem_cons_of_mem r hx))
  intro rs h
  exact general rs "N/A" h

/-- C3 amended: for each non-compliance topic the rendered values are
the last design-side and last requirement-side candidate values found
while scanning the batch in order (later matches overwrite earlier
ones), and a slot no record fills renders the placeholder; this holds
whenever the extraction scan returns normally. -/
theorem claim_C3_last_values :
    (∀ (user_question design_text regulations_text : String)
        (rs : List ResultRecord) (st : ChatState),
        scanResults initChatState rs = .ok st →
        containsAnyWord complianceWords (lowerData user_question) = false →
        (containsAnyWord insulationWords (lowerData user_question) = true →
          chat_with_documents user_question design_text regulations_text rs =
            .ok (insulationResponse (lastExtracted desThicknessOf rs)
              (lastExtracted reqThicknessOf rs))) ∧
        (containsAnyWord insulationWords (lowerData user_question) = false →
          containsAnyWord seismicWords (lowerData user_question) = true →
          chat_with_documents user_question design_text regulations_text rs =
            .ok (seismicResponse (lastExtracted desSeismicOf rs)
              (lastExtracted reqSeismicOf rs))) ∧
        (containsAnyWord insulationWords (lowerData user_question) = false →
          containsAnyWord seismicWords (lowerData user_question) = false →
          containsAnyWord emergencyWords (lowerData user_question) = true →
          chat_with_documents user_question design_text regulations_text rs =
            .ok (emergencyResponse (lastExtracted desHoursOf rs)
              (lastExtracted reqHoursOf rs)
              (if lastExtracted desHoursOf rs ≠ "N/A" ∧
                  lastExtracted reqHoursOf rs ≠ "N/A" ∧
                  natOfDigits (lastExtracted reqHoursOf rs) ≤
                    natOfDigits (lastExtracted desHoursOf rs) then
                "meets" else "does not meet"))) ∧
        (containsAnyWord insulationWords (lowerData user_question) = false →
          containsAnyWord seismicWords (lowerData user_question) = false →
          containsAnyWord emergencyWords (lowerData user_question) = false →
          containsAnyWord pumpsWords (lowerData user_question) = true →
          chat_with_documents user_question design_text regulations_text rs =
            .ok (pumpsResponse (lastExtracted desPumpsOf rs)
              (lastExtracted reqPumpsOf rs)))) ∧
    (∀ (f : ResultRecord → Option String) (rs : List ResultRecord),
      (∀ r ∈ rs, f r = none) → lastExtracted f rs = "N/A") := by
  refine ⟨?_, lastExtracted_none⟩
  intro q dt rt rs st hscan h0
  obtain ⟨e1, e2, e3, e4, e5, e6, e7, e8⟩ := scan_ok_slots hscan
  refine ⟨fun h1 => ?_, fun h1 h2 => ?_, fun h1 h2 h3 => ?_, fun h1 h2 h3 h4 => ?_⟩
  · simp only [chat_with_documents, hscan, h0, h1, e1, e2]
    simp
  · simp only [chat_with_documents, hscan, h0, h1, h2, e3, e4]
    simp
  · simp only [chat_with_documents, hscan, h0, h1, h2, h3, e5, e6]
    simp
  · simp only [chat_with_documents, hscan, h0, h1, h2, h3, h4, e7, e8]
    simp

/-- Witness for the amended C3 on the two-record insulation batch. -/
theorem claim_C3_last_values_witness :
    chat_with_documents "thickness" "" "" demoBatchC3 =
      .ok (insulationResponse (lastExtracted desThicknessOf demoBatchC3)
        (lastExtracted reqThicknessOf demoBatchC3)) :=
  ((claim_C3_last_values.1 "thickness" "" "" demoBatchC3
      ⟨true, "70", "60", "N/A", "N/A", "N/A", "N/A", "N/A", "N/A"⟩
      (by decide) (by decide)).1 (by decide))

/-- Demonstration batch: an insulation record, then a pumps record
whose regulation count is adjacent to "independent" but whose design
count is not adjacent to either token. -/
def demoBatchC7 : List ResultRecord :=
  [{ compliance_status := none,
     regulation_text := some "insulation thickness 50 mm",
     design_text := some "" },
   { compliance_status := none,
     regulation_text :=
       some "the containment spray system needs at least 3 independent pumps",
     design_text := some "containment spray system has 2 pumps" }]

/-- C7: the pumps pattern extracts a number only when its digits are
followed, across whitespace only, by the literal token independent or
separate; on the demonstration batch the design text has a pump count
with neither token adjacent, so the design slot of the pumps response
renders the placeholder while the requirement slot renders 3. -/
theorem claim_C7_pump_adjacency :
    (∀ (s : List Char) (v : String),
      findNumBefore ["independent", "separate"] s = some v →
      ∃ pre ds ws suf, s = pre ++ ds ++ ws ++ suf ∧ ds ≠ [] ∧
        (∀ c ∈ ds, c.isDigit = true) ∧ (∀ c ∈ ws, isSpaceChar c = true) ∧
        ("independent".data.isPrefixOf suf = true ∨
          "separate".data.isPrefixOf suf = true) ∧ v = String.mk ds) ∧
    chat_with_documents "pumps" "" "" demoBatchC7 =
      .ok (pumpsResponse "N/A" "3") := by
  constructor
  · intro s v h
    obtain ⟨pre, ds, ws, suf, h1, h2, h3, h4, ⟨t, ht, hp⟩, h6⟩ :=
      findNumBefore_some_decomp ["independent", "separate"] s v h
    refine ⟨pre, ds, ws, suf, h1, h2, h3, h4, ?_, h6⟩
    simp only [List.mem_cons, List.not_mem_nil, or_false] at ht
    rcases ht with rfl | rfl
    · exact Or.inl hp
    · exact Or.inr hp
  · decide

/-- Witness for C7: a concrete successful extraction decomposes with
the token adjacent to the digits. -/
theorem claim_C7_pump_adjacency_witness :
    ∃ pre ds ws suf, "3 independent".data = pre ++ ds ++ ws ++ suf ∧ ds ≠ [] ∧
      (∀ c ∈ ds, c.isDigit = true) ∧ (∀ c ∈ ws, isSpaceChar c = true) ∧
      ("independent".data.isPrefixOf suf = true ∨
        "separate".data.isPrefixOf suf = true) ∧ "3" = String.mk ds :=
  claim_C7_pump_adjacency.1 "3 independent".data "3" (by decide)

/-- A record whose regulation text mentions both seismic and
emergency hours. -/
def demoRecC8 : ResultRecord :=
  { compliance_status := none,
    regulation_text :=
      some "Seismic resistance of 0.3g and emergency cooling for 72 hours",
    design_text := some "withstands 0.4g and runs 96 hours" }

/-- A loop state in which `re` is already imported. -/
def demoStC8 : ChatState :=
  ⟨true, "N/A", "N/A", "N/A", "N/A", "N/A", "N/A", "N/A", "N/A"⟩

/-- C8: each record contributes values to at most one category: the
branching equals first-match-wins over the ordered keyword table
(insulation+thickness, seismic, hours+emergency, pumps+containment),
every iteration leaves the slots of non-selected categories
unchanged, and a record mentioning both seismic and emergency hours
selects the seismic category. -/
theorem claim_C8_first_match :
    (∀ regulation_text : List Char,
      recordBranch regulation_text = firstMatchCategory regulation_text) ∧
    (∀ (st st2 : ChatState) (r : ResultRecord), stepRecord st r = .ok st2 →
      ∀ c : TopicCat, recordBranch (regLower r) ≠ some c →
        slotPair c st2 = slotPair c st) ∧
    recordBranch (regLower demoRecC8) = some .seismic := by
  refine ⟨?_, ?_, by decide⟩
  · intro rt
    unfold recordBranch firstMatchCategory categoryTests
    cases h1 : (containsSub "insulation".data rt &&
        containsSub "thickness".data rt) <;>
    cases h2 : containsSub "seismic".data rt <;>
    cases h3 : (containsSub "hours".data rt &&
        containsSub "emergency".data rt) <;>
    cases h4 : (containsSub "pumps".data rt &&
        containsSub "containment".data rt) <;>
      simp [h1, h2, h3, h4, List.find?]
  · intro st st2 r hok c hne
    have hstep := stepRecord_ok hok
    subst hstep
    rw [stepPure_eq]
    cases c <;>
      simp [slotPair, desThicknessOf, reqThicknessOf, desSeismicOf, reqSeismicOf,
        desHoursOf, reqHoursOf, desPumpsOf, reqPumpsOf, hne]

/-- Witness for C8: the record mentioning both seismic and emergency
hours leaves the emergency slots untouched. -/
theorem claim_C8_first_match_witness :
    slotPair .emergency (stepPure demoStC8 demoRecC8) =
      slotPair .emergency demoStC8 :=
  claim_C8_first_match.2.1 demoStC8 (stepPure demoStC8 demoRecC8) demoRecC8
    (by decide) .emergency (by decide)

/-- Three scored benchmark cases over two categories. -/
def demoC9 : List CaseResult :=
  [{ category := "safety", expected_status := "Compliant",
     actual_status := "Compliant", is_correct := true },
   { category := "safety", expected_status := "Compliant",
     actual_status := "Non-Compliant", is_correct := false },
   { category := "material", expected_status := "Non-Compliant",
     actual_status := "Non-Compliant", is_correct := true }]

/-- C9: the harness scores a case correct exactly when the returned
compliance status equals the expected status; the summary reports
overall accuracy correct / total * 100 (0 with no cases) and, for
every category appearing among the cases, the per-category totals and
accuracy correct-in-category / total-in-category * 100. -/
theorem claim_C9_benchmark :
    (∀ (checker : String → String → CheckOutcome) (tc : BenchCase),
      ((scoreCase checker tc).is_correct = true ↔
        (checker tc.design tc.regulation).compliance_status.getD "Unknown" =
          tc.expected_status)) ∧
    (∀ cases : List CaseResult, cases ≠ [] →
      overallAccuracy cases =
        (correctCount cases : ℚ) / (cases.length : ℚ) * 100) ∧
    overallAccuracy [] = 0 ∧
    (∀ (cases : List CaseResult) (cat : String), (∃ x ∈ cases, x.category = cat) →
      lookupPerformance (categoryPerformance cases) cat =
        some (countInCategory cases cat, correctInCategory cases cat,
          (correctInCategory cases cat : ℚ) /
            (countInCategory cases cat : ℚ) * 100)) := by
  refine ⟨?_, ?_, by norm_num [overallAccuracy], ?_⟩
  · intro checker tc
    simp [scoreCase]
  · intro cases hne
    have hpos : 0 < cases.length := List.length_pos.mpr hne
    simp [overallAccuracy, hpos]
  · intro cases cat hmem
    have hpos := countInCategory_pos hmem
    rw [categoryPerformance, lookupPerformance_map,
      categoryTally_spec cases cat hmem]
    simp [hpos]

/-- Witness for C9 on the three demonstration cases: the category
safety has two cases, one correct. -/
theorem claim_C9_benchmark_witness :
    lookupPerformance (categoryPerformance demoC9) "safety" =
      some (countInCategory demoC9 "safety", correctInCategory demoC9 "safety",
        (correctInCategory demoC9 "safety" : ℚ) /
          (countInCategory demoC9 "safety" : ℚ) * 100) :=
  claim_C9_benchmark.2.2.2 demoC9 "safety"
    ⟨demoC9.head (by decide), by decide, by decide⟩
